import Mathlib

/-!
Shallow embedding of the MaxTrack journey-export service (`api.js` and
`server.js`), with the upstream platform, the clock and the crypto library
modelled as explicit environment parameters.

Time model: the runtime clock is epoch milliseconds (`Int`), and local time
is a fixed offset from UTC (the deployment container configures no time
zone).  Every network call is modelled as instantaneous, so the polling
loop's checks land exactly at `INITIAL_DELAY_MS + i * POLL_INTERVAL_MS`
milliseconds after entering `pollForCompletion`.
-/

namespace MaxTrack

/-- JavaScript truthiness of a nullable string: `undefined`, `null` and the
empty string are falsy. -/
def truthy : Option String → Bool
  | some s => s != ""
  | none => false

/-- JavaScript `a || b` on nullable strings. -/
def jsOr (a b : Option String) : Option String :=
  if truthy a then a else b

/-- Occurrence check behind JavaScript `String.prototype.includes`,
on character lists. -/
def includesAux (sub : List Char) : List Char → Bool
  | [] => sub.isEmpty
  | c :: t => sub.isPrefixOf (c :: t) || includesAux sub t

/-- JavaScript `s.includes(sub)`. -/
def includes (s sub : String) : Bool :=
  includesAux sub.data s.data

/-- One entry of the upstream job list (a `process` in the source).
`stateId` models `process.state?.id`, `statusStateId` models
`process.status?.state?.id`; the two result fields model
`process.resultFileUrl` and `process.status?.resultFileUrl`
(`none` when the field is absent). -/
structure Process where
  name : String
  createDate : Int
  stateId : Option String
  statusStateId : Option String
  resultFileUrl : Option String
  statusResultFileUrl : Option String
  deriving DecidableEq, Repr

/-- `process.state?.id || process.status?.state?.id` (`server.js:86,128`). -/
def stateOf (p : Process) : Option String :=
  jsOr p.stateId p.statusStateId

/-- `process.resultFileUrl || process.status?.resultFileUrl`
(`server.js:131,137,146`). -/
def fileUrlOf (p : Process) : Option String :=
  jsOr p.resultFileUrl p.statusResultFileUrl

/-- The filter predicate of `findProcessByNameAndDate` (`api.js:160-164`):
exact (case-sensitive) name equality, and creation date within the window,
inclusive at both bounds. -/
def matchesCriteria (processName : String) (startTimestamp endTimestamp : Int)
    (p : Process) : Bool :=
  p.name == processName && (startTimestamp ≤ p.createDate && p.createDate ≤ endTimestamp)

/-- `findProcessByNameAndDate` (`api.js:159-173`): filter by exact name and
inclusive date range, sort descending by `createDate` (a stable sort, as in
the JavaScript runtime) and return the first element; `null` (here `none`)
when nothing matches. -/
def findProcessByNameAndDate (processList : List Process) (processName : String)
    (startTimestamp endTimestamp : Int) : Option Process :=
  let matchList := processList.filter (matchesCriteria processName startTimestamp endTimestamp)
  (List.insertionSort (fun a b => b.createDate ≤ a.createDate) matchList).head?

instance : IsTotal Process (fun a b => b.createDate ≤ a.createDate) :=
  ⟨fun a b => le_total b.createDate a.createDate⟩

instance : IsTrans Process (fun a b => b.createDate ≤ a.createDate) :=
  ⟨fun _ _ _ hab hbc => le_trans hbc hab⟩

/-- An older matching job, used by concrete witnesses. -/
def demoA : Process :=
  ⟨"A", 1, some "COMPLETED", none, some "https://x/old", none⟩

/-- A newer matching job, used by concrete witnesses. -/
def demoB : Process :=
  ⟨"A", 5, some "COMPLETED", none, some "https://x/new", none⟩

def demoList : List Process := [demoA, demoB]

/-- `server.js:5`. -/
def PROCESS_NAME : String := "Planilha de Jornadas V2"

/-- `server.js:6`. -/
def POLL_INTERVAL_MS : Nat := 5000

/-- `server.js:7`. -/
def INITIAL_DELAY_MS : Nat := 3000

/-- `server.js:8`. -/
def MAX_POLL_TIME_MS : Nat := 10 * 60 * 1000

/-- `getYesterdayDateRange` (`server.js:25-43`) under the fixed-offset local
time model: `now` is the clock in epoch ms and `tzOffset` the local-time
offset in ms.  `setDate(getDate() - 1); setHours(0, 0, 0, 0)` lands on local
midnight of the previous local calendar day, and `setHours(23, 59, 59, 999)`
on the last millisecond of that same local day.  Only the two timestamps are
returned; the source additionally renders the same two instants as ISO
strings for the export request payload. -/
def getYesterdayDateRange (now tzOffset : Int) : Int × Int :=
  let localDay := (now + tzOffset).fdiv 86400000
  ((localDay - 1) * 86400000 - tzOffset, (localDay - 1) * 86400000 + 86399999 - tzOffset)

/-- Outcome of one `pollForCompletion` run: the completed process together
with the elapsed milliseconds at which it was returned and the number of
polls used, or the thrown failure (carrying the job state) or timeout. -/
inductive PollResult where
  | completed (process : Process) (finishTime : Nat) (polls : Nat)
  | failed (state : String) (polls : Nat)
  | timedOut (polls : Nat)
  deriving DecidableEq, Repr

/-- The message of `server.js:95`. -/
def pollFailedMessage (state : String) : String :=
  "Process failed with state: " ++ state

/-- The message of `server.js:102`. -/
def pollTimeoutMessage : String :=
  "Polling timeout: Process did not complete within 10 minutes"

/-- The `while` loop of `pollForCompletion` (`server.js:60-100`).  `env i` is
the job list returned by the `i`-th `listProcesses` call of this run.
Network calls are instantaneous in the model, so the `i`-th check runs
`INITIAL_DELAY_MS + i * POLL_INTERVAL_MS` ms after entry, which is what the
`while` guard compares against `MAX_POLL_TIME_MS`.  `fuel` only bounds the
recursion: `pollForCompletion` passes `MAX_POLL_TIME_MS`, and
`pollLoop_fuel_stable` shows any fuel of at least `MAX_POLL_TIME_MS - i`
yields the same result, because the time guard always trips first. -/
def pollLoop (env : Nat → List Process) (startTimestamp endTimestamp : Int) :
    Nat → Nat → PollResult
  | 0, i => PollResult.timedOut i
  | fuel + 1, i =>
    if INITIAL_DELAY_MS + i * POLL_INTERVAL_MS < MAX_POLL_TIME_MS then
      match findProcessByNameAndDate (env i) PROCESS_NAME startTimestamp endTimestamp with
      | none => pollLoop env startTimestamp endTimestamp fuel (i + 1)
      | some process =>
        let state := stateOf process
        if state = some "COMPLETED" then
          PollResult.completed process (INITIAL_DELAY_MS + i * POLL_INTERVAL_MS) (i + 1)
        else if state = some "ERROR" ∨ state = some "CANCELLED" then
          PollResult.failed (state.getD "") (i + 1)
        else
          pollLoop env startTimestamp endTimestamp fuel (i + 1)
    else
      PollResult.timedOut i

/-- `pollForCompletion` (`server.js:52-103`). -/
def pollForCompletion (env : Nat → List Process) (startTimestamp endTimestamp : Int) :
    PollResult :=
  pollLoop env startTimestamp endTimestamp MAX_POLL_TIME_MS 0

/-- The job state observed by one check: the state of the matched process,
`none` when no process matches. -/
def observedState (l : List Process) (startTimestamp endTimestamp : Int) : Option String :=
  match findProcessByNameAndDate l PROCESS_NAME startTimestamp endTimestamp with
  | none => none
  | some p => stateOf p

/-- A check observed a terminal job state (`COMPLETED`, `ERROR` or
`CANCELLED`). -/
def terminalObserved (l : List Process) (startTimestamp endTimestamp : Int) : Prop :=
  observedState l startTimestamp endTimestamp = some "COMPLETED" ∨
    observedState l startTimestamp endTimestamp = some "ERROR" ∨
    observedState l startTimestamp endTimestamp = some "CANCELLED"

/-- A job that matches `PROCESS_NAME` in `COMPLETED` state, used by concrete
witnesses. -/
def demoCompleted : Process :=
  ⟨"Planilha de Jornadas V2", 0, some "COMPLETED", none, some "https://x/1", none⟩

/-- The upstream login HTTP response as observed by `login` (`api.js:12-49`):
`ok` and `status` of the fetch response, the error body text, and the
`set-cookie` response header (`none` when absent). -/
structure LoginResponse where
  ok : Bool
  status : Nat
  errorText : String
  setCookie : Option String

/-- JavaScript `header.split(';')[0]`: the prefix of the string before its
first semicolon. -/
def beforeSemicolon (h : String) : String :=
  String.mk (h.data.takeWhile (fun c => c != ';'))

/-- `login` (`api.js:12-49`), reduced to its observable control flow:
the thrown message on a non-success status or a missing/empty
`PLAY_SESSION` cookie, or the extracted cookie on success. -/
def login (resp : LoginResponse) : Except String String :=
  if !resp.ok then
    Except.error ("Login failed: " ++ toString resp.status ++ " - " ++ resp.errorText)
  else
    let playSessionCookie : Option String :=
      if truthy resp.setCookie then some (beforeSemicolon (resp.setCookie.getD ""))
      else none
    if !truthy playSessionCookie then
      Except.error "No session cookie received from login"
    else
      Except.ok (playSessionCookie.getD "")

/-- The upstream platform's behaviour during one resolution:
the job list returned by the initial `listProcesses` call
(`server.js:119`), the lists returned by the successive calls inside
`pollForCompletion`, and whether `exportJourney` succeeds (when it does
not, the upstream text of the thrown `Export journey failed` message). -/
structure UpstreamEnv where
  initialList : List Process
  pollLists : Nat → List Process
  exportOk : Bool
  exportFailBody : String

/-- Result of `resolveExportUrl`: the returned file URL expression
(`none`/empty when the job carried no URL) or the thrown message. -/
inductive ResolveOutcome where
  | ok (fileUrl : Option String)
  | err (msg : String)
  deriving DecidableEq, Repr

/-- `resolveExportUrl` result plus the run's observable upstream
interactions: `pollForCompletion` entries, total `listProcesses` calls
(the initial listing included) and `exportJourney` calls. -/
structure ResolveTrace where
  outcome : ResolveOutcome
  pollInvocations : Nat
  listCalls : Nat
  exportCalls : Nat
  deriving DecidableEq, Repr

/-- `server.js:141-146`: trigger a new export, then poll.  Reached when no
recent process matches, and also when the matched process is in a state
that is neither `COMPLETED` nor in-flight. -/
def triggerAndPoll (env : UpstreamEnv) (searchStart searchEnd : Int) : ResolveTrace :=
  if env.exportOk then
    match pollForCompletion env.pollLists searchStart searchEnd with
    | PollResult.completed completedProcess _ k =>
      ⟨ResolveOutcome.ok (fileUrlOf completedProcess), 1, 1 + k, 1⟩
    | PollResult.failed s k => ⟨ResolveOutcome.err (pollFailedMessage s), 1, 1 + k, 1⟩
    | PollResult.timedOut k => ⟨ResolveOutcome.err pollTimeoutMessage, 1, 1 + k, 1⟩
  else
    ⟨ResolveOutcome.err ("Export journey failed: " ++ env.exportFailBody), 0, 1, 1⟩

/-- `resolveExportUrl` (`server.js:110-147`).  `now` is `Date.now()` at
entry; the job-search window is the sliding range from two hours before to
five minutes after `now`.  The yesterday data window is also computed by
the source here, but only to fill the `exportJourney` request payload,
whose effect the environment's `exportOk` summarises. -/
def resolveExportUrl (env : UpstreamEnv) (now : Int) : ResolveTrace :=
  let processSearchStart := now - 2 * 60 * 60 * 1000
  let processSearchEnd := now + 5 * 60 * 1000
  match findProcessByNameAndDate env.initialList PROCESS_NAME
      processSearchStart processSearchEnd with
  | some existingProcess =>
    let state := stateOf existingProcess
    if state = some "COMPLETED" then
      ⟨ResolveOutcome.ok (fileUrlOf existingProcess), 0, 1, 0⟩
    else if state = some "SCHEDULED" ∨ state = some "WAITING" ∨ state = some "PROCESSING" then
      match pollForCompletion env.pollLists processSearchStart processSearchEnd with
      | PollResult.completed completedProcess _ k =>
        ⟨ResolveOutcome.ok (fileUrlOf completedProcess), 1, 1 + k, 0⟩
      | PollResult.failed s k => ⟨ResolveOutcome.err (pollFailedMessage s), 1, 1 + k, 0⟩
      | PollResult.timedOut k => ⟨ResolveOutcome.err pollTimeoutMessage, 1, 1 + k, 0⟩
    else
      triggerAndPoll env processSearchStart processSearchEnd
  | none => triggerAndPoll env processSearchStart processSearchEnd

/-- A response body: the structured content of the `JSON.stringify` error
bodies, or raw downloaded file bytes. -/
inductive Body where
  | json (success : Bool) (error : String)
  | file (data : List Nat)
  deriving DecidableEq, Repr

structure HttpResponse where
  status : Nat
  body : Body
  headers : List (String × String)
  deriving DecidableEq, Repr

/-- The S3 download response observed at `server.js:183-205`. -/
structure DownloadResponse where
  ok : Bool
  status : Nat
  statusText : String
  contentType : Option String
  data : List Nat

/-- Environment of one `handleJourneyExport` run: the login response, the
upstream behaviour during resolution, the clock at entry, the S3 download
response and the digest function modelling `calculateHash`
(`crypto.createHash(algorithm)`, `server.js:16-19`). -/
structure HandlerEnv where
  loginResp : LoginResponse
  upstream : UpstreamEnv
  now : Int
  download : DownloadResponse
  hash : String → List Nat → String

/-- Upstream interactions observable from one handler run. -/
structure Calls where
  loginCalls : Nat
  listCalls : Nat
  exportCalls : Nat
  pollInvocations : Nat
  downloadCalls : Nat
  deriving DecidableEq, Repr

def jsonHeaders : List (String × String) :=
  [("Content-Type", "application/json")]

/-- The `catch` block of `handleJourneyExport` (`server.js:222-242`):
thrown messages containing `Login failed` map to
`401 Authentication failed: Invalid credentials`, everything else to `500`
with the message itself. -/
def catchResponse (msg : String) : HttpResponse :=
  if includes msg "Login failed" then
    ⟨401, Body.json false "Authentication failed: Invalid credentials", jsonHeaders⟩
  else
    ⟨500, Body.json false msg, jsonHeaders⟩

/-- `handleJourneyExport` (`server.js:157-243`), with the request headers
`email` and `password` (`none` when the header is missing).  Note the
source returns status `401`, not `400`, on missing credentials
(`server.js:165`). -/
def handleJourneyExport (email password : Option String) (env : HandlerEnv) :
    HttpResponse × Calls :=
  if !truthy email || !truthy password then
    (⟨401, Body.json false "Email and password are required", jsonHeaders⟩, ⟨0, 0, 0, 0, 0⟩)
  else
    match login env.loginResp with
    | Except.error msg => (catchResponse msg, ⟨1, 0, 0, 0, 0⟩)
    | Except.ok _ =>
      match resolveExportUrl env.upstream env.now with
      | ⟨ResolveOutcome.err msg, pollN, listN, exportN⟩ =>
        (catchResponse msg, ⟨1, listN, exportN, pollN, 0⟩)
      | ⟨ResolveOutcome.ok fileUrl, pollN, listN, exportN⟩ =>
        if !truthy fileUrl then
          (catchResponse "Export completed but no file URL was returned",
            ⟨1, listN, exportN, pollN, 0⟩)
        else if !env.download.ok then
          (catchResponse ("Failed to download file: " ++ toString env.download.status ++ " "
              ++ env.download.statusText),
            ⟨1, listN, exportN, pollN, 1⟩)
        else
          let fileBuffer := env.download.data
          let fileSize := fileBuffer.length
          let md5Hash := env.hash "md5" fileBuffer
          let sha256Hash := env.hash "sha256" fileBuffer
          let contentType :=
            match env.download.contentType with
            | some c => if c = "" then "application/vnd.ms-excel" else c
            | none => "application/vnd.ms-excel"
          (⟨200, Body.file fileBuffer,
            [("Content-Type", contentType),
              ("Content-Disposition", "attachment; filename=\"jornada-export.xls\""),
              ("Content-Length", toString fileSize),
              ("X-File-MD5", md5Hash),
              ("X-File-SHA256", sha256Hash)]⟩,
            ⟨1, listN, exportN, pollN, 1⟩)

/-- A job matching `PROCESS_NAME` in `ERROR` state, for witnesses. -/
def demoErrorProcess : Process :=
  ⟨"Planilha de Jornadas V2", 0, some "ERROR", none, none, none⟩

/-- A `COMPLETED` matching job with no result URL at either nesting path,
for witnesses. -/
def demoNoUrlProcess : Process :=
  ⟨"Planilha de Jornadas V2", 0, some "COMPLETED", none, none, none⟩

/-- A login response carrying a `PLAY_SESSION` cookie, for witnesses. -/
def demoLoginOk : LoginResponse := ⟨true, 200, "", some "PLAY_SESSION=abc; Path=/"⟩

def demoDownload : DownloadResponse :=
  ⟨true, 200, "OK", some "application/vnd.ms-excel", [1, 2, 3]⟩

/-- A concrete stand-in for `crypto.createHash(algorithm)...digest("hex")`. -/
def demoHash : String → List Nat → String := fun algorithm _ => algorithm

def demoEnv : HandlerEnv :=
  ⟨demoLoginOk, ⟨[], fun _ => [], true, ""⟩, 0, demoDownload, demoHash⟩

def errorEnv : HandlerEnv :=
  ⟨demoLoginOk, ⟨[demoErrorProcess], fun _ => [demoErrorProcess], true, ""⟩, 0,
    demoDownload, demoHash⟩

def noCookieEnv : HandlerEnv :=
  ⟨⟨true, 200, "", none⟩, ⟨[], fun _ => [], true, ""⟩, 0, demoDownload, demoHash⟩

def deniedLogin : LoginResponse := ⟨false, 403, "denied", none⟩

def deniedEnv : HandlerEnv :=
  ⟨deniedLogin, ⟨[], fun _ => [], true, ""⟩, 0, demoDownload, demoHash⟩

def demoUpstreamCompleted : UpstreamEnv := ⟨[demoCompleted], fun _ => [], true, ""⟩

def successEnv : HandlerEnv :=
  ⟨demoLoginOk, demoUpstreamCompleted, 0, demoDownload, demoHash⟩

def noUrlEnv : HandlerEnv :=
  ⟨demoLoginOk, ⟨[demoNoUrlProcess], fun _ => [], true, ""⟩, 0, demoDownload, demoHash⟩

lemma findProcess_eq_none_iff (l : List Process) (n : String) (s e : Int) :
    findProcessByNameAndDate l n s e = none ↔
      ∀ p ∈ l, matchesCriteria n s e p = false := by
  unfold findProcessByNameAndDate
  constructor
  · intro h p hp
    by_contra hc
    have hmem : p ∈ l.filter (matchesCriteria n s e) :=
      List.mem_filter.mpr ⟨hp, by simpa using hc⟩
    have hmem' : p ∈ List.insertionSort (fun a b => b.createDate ≤ a.createDate)
        (l.filter (matchesCriteria n s e)) :=
      ((List.perm_insertionSort _ _).mem_iff).mpr hmem
    rcases List.isEmpty_iff.mp (by simpa [List.head?_eq_none_iff] using h) with hnil
    rw [hnil] at hmem'
    exact absurd hmem' (List.not_mem_nil p)
  · intro h
    have hfil : l.filter (matchesCriteria n s e) = [] := by
      apply List.filter_eq_nil_iff.mpr
      intro a ha
      simp [h a ha]
    simp [hfil]

lemma findProcess_some_spec (l : List Process) (n : String) (s e : Int) (p : Process)
    (h : findProcessByNameAndDate l n s e = some p) :
    (p ∈ l ∧ matchesCriteria n s e p = true) ∧
      ∀ q ∈ l, matchesCriteria n s e q = true → q.createDate ≤ p.createDate := by
  simp only [findProcessByNameAndDate] at h
  have hsorted : List.Sorted (fun a b : Process => b.createDate ≤ a.createDate)
      (List.insertionSort (fun a b => b.createDate ≤ a.createDate)
        (l.filter (matchesCriteria n s e))) :=
    List.sorted_insertionSort _ _
  cases hs : List.insertionSort (fun a b : Process => b.createDate ≤ a.createDate)
      (l.filter (matchesCriteria n s e)) with
  | nil => rw [hs] at h; cases h
  | cons a t =>
    rw [hs] at h
    have hap : a = p := by simpa using h
    subst hap
    rw [hs] at hsorted
    have hmem_sorted : a ∈ List.insertionSort (fun a b : Process => b.createDate ≤ a.createDate)
        (l.filter (matchesCriteria n s e)) := by
      rw [hs]; exact List.mem_cons_self a t
    have hmem_fil : a ∈ l.filter (matchesCriteria n s e) :=
      ((List.perm_insertionSort _ _).mem_iff).mp hmem_sorted
    have hmf := List.mem_filter.mp hmem_fil
    refine ⟨⟨hmf.1, hmf.2⟩, ?_⟩
    intro q hq hcrit
    have hqfil : q ∈ l.filter (matchesCriteria n s e) := List.mem_filter.mpr ⟨hq, hcrit⟩
    have hqsorted : q ∈ List.insertionSort (fun a b : Process => b.createDate ≤ a.createDate)
        (l.filter (matchesCriteria n s e)) :=
      ((List.perm_insertionSort _ _).mem_iff).mpr hqfil
    rw [hs] at hqsorted
    rcases List.mem_cons.mp hqsorted with hqa | hqt
    · rw [hqa]
    · exact (List.sorted_cons.mp hsorted).1 q hqt

/-- C1: `findProcessByNameAndDate` returns `none` exactly when no entry has
an exact (case-sensitive) name match with a creation timestamp inside the
inclusive window; and any returned entry is such a match whose creation
timestamp is maximal among the matches. -/
theorem findProcessByNameAndDate_spec (l : List Process) (n : String) (s e : Int) :
    (findProcessByNameAndDate l n s e = none ↔
      ∀ p ∈ l, matchesCriteria n s e p = false) ∧
    (∀ p, findProcessByNameAndDate l n s e = some p →
      (p ∈ l ∧ matchesCriteria n s e p = true) ∧
        ∀ q ∈ l, matchesCriteria n s e q = true → q.createDate ≤ p.createDate) :=
  ⟨findProcess_eq_none_iff l n s e, fun p h => findProcess_some_spec l n s e p h⟩

/-- Witness for C1: on a concrete two-element list the matcher returns the
entry with the larger creation timestamp, which is a match and maximal. -/
theorem findProcessByNameAndDate_spec_witness :
    (demoB ∈ demoList ∧ matchesCriteria "A" 0 10 demoB = true) ∧
      ∀ q ∈ demoList, matchesCriteria "A" 0 10 q = true →
        q.createDate ≤ demoB.createDate :=
  (findProcessByNameAndDate_spec demoList "A" 0 10).2 demoB (by decide)

/-- C5: the yesterday window always spans exactly `86399999` ms
(24 hours minus 1 ms), its start is local midnight of the previous local
day, whatever the time of day `now` is. -/
theorem getYesterdayDateRange_spec (now tzOffset : Int) :
    (getYesterdayDateRange now tzOffset).2 - (getYesterdayDateRange now tzOffset).1 = 86399999 ∧
    (getYesterdayDateRange now tzOffset).1 + tzOffset =
      ((now + tzOffset).fdiv 86400000 - 1) * 86400000 ∧
    ((getYesterdayDateRange now tzOffset).1 + tzOffset).fdiv 86400000 =
      (now + tzOffset).fdiv 86400000 - 1 ∧
    ((getYesterdayDateRange now tzOffset).1 + tzOffset).emod 86400000 = 0 := by
  have h2 : (getYesterdayDateRange now tzOffset).1 + tzOffset =
      ((now + tzOffset).fdiv 86400000 - 1) * 86400000 := by
    simp only [getYesterdayDateRange]
    ring
  refine ⟨?_, h2, ?_, ?_⟩
  · simp only [getYesterdayDateRange]
    ring
  · rw [h2]
    exact Int.mul_fdiv_cancel _ (by norm_num)
  · rw [h2]
    exact Int.mul_emod_left _ _

lemma pollLoop_guard_false (env : Nat → List Process) (s e : Int) (fuel i : Nat)
    (h : ¬ INITIAL_DELAY_MS + i * POLL_INTERVAL_MS < MAX_POLL_TIME_MS) :
    pollLoop env s e fuel i = PollResult.timedOut i := by
  cases fuel with
  | zero => rfl
  | succ fuel => rw [pollLoop, if_neg h]

lemma pollLoop_fuel_stable (env : Nat → List Process) (s e : Int) :
    ∀ fuel₁ fuel₂ i, MAX_POLL_TIME_MS ≤ i + fuel₁ → MAX_POLL_TIME_MS ≤ i + fuel₂ →
      pollLoop env s e fuel₁ i = pollLoop env s e fuel₂ i := by
  intro fuel₁
  induction fuel₁ with
  | zero =>
    intro fuel₂ i h1 h2
    have hguard : ¬ INITIAL_DELAY_MS + i * POLL_INTERVAL_MS < MAX_POLL_TIME_MS := by
      simp only [INITIAL_DELAY_MS, POLL_INTERVAL_MS, MAX_POLL_TIME_MS] at *
      nlinarith
    rw [pollLoop_guard_false env s e 0 i hguard, pollLoop_guard_false env s e fuel₂ i hguard]
  | succ fuel₁ ih =>
    intro fuel₂ i h1 h2
    cases fuel₂ with
    | zero =>
      have hguard : ¬ INITIAL_DELAY_MS + i * POLL_INTERVAL_MS < MAX_POLL_TIME_MS := by
        simp only [INITIAL_DELAY_MS, POLL_INTERVAL_MS, MAX_POLL_TIME_MS] at *
        nlinarith
      rw [pollLoop_guard_false env s e (fuel₁ + 1) i hguard,
        pollLoop_guard_false env s e 0 i hguard]
    | succ fuel₂ =>
      rw [pollLoop, pollLoop]
      by_cases hguard : INITIAL_DELAY_MS + i * POLL_INTERVAL_MS < MAX_POLL_TIME_MS
      · rw [if_pos hguard, if_pos hguard]
        cases hfind : findProcessByNameAndDate (env i) PROCESS_NAME s e with
        | none => exact ih fuel₂ (i + 1) (by omega) (by omega)
        | some p =>
          simp only []
          by_cases hc : stateOf p = some "COMPLETED"
          · rw [if_pos hc, if_pos hc]
          · rw [if_neg hc, if_neg hc]
            by_cases hf : stateOf p = some "ERROR" ∨ stateOf p = some "CANCELLED"
            · rw [if_pos hf, if_pos hf]
            · rw [if_neg hf, if_neg hf]
              exact ih fuel₂ (i + 1) (by omega) (by omega)
      · rw [if_neg hguard, if_neg hguard]

lemma pollLoop_timedOut_of_nonterminal (env : Nat → List Process) (s e : Int) :
    ∀ fuel i,
      (∀ j, i ≤ j → INITIAL_DELAY_MS + j * POLL_INTERVAL_MS < MAX_POLL_TIME_MS →
        ¬ terminalObserved (env j) s e) →
      ∃ k, pollLoop env s e fuel i = PollResult.timedOut k := by
  intro fuel
  induction fuel with
  | zero => exact fun i _ => ⟨i, rfl⟩
  | succ fuel ih =>
    intro i h
    rw [pollLoop]
    by_cases hguard : INITIAL_DELAY_MS + i * POLL_INTERVAL_MS < MAX_POLL_TIME_MS
    · rw [if_pos hguard]
      cases hfind : findProcessByNameAndDate (env i) PROCESS_NAME s e with
      | none => exact ih (i + 1) (fun j hj => h j (by omega))
      | some p =>
        have hobs : observedState (env i) s e = stateOf p := by
          simp [observedState, hfind]
        have hterm := h i (le_refl i) hguard
        rw [terminalObserved, hobs] at hterm
        push_neg at hterm
        simp only []
        rw [if_neg hterm.1, if_neg (by simp [hterm.2.1, hterm.2.2])]
        exact ih (i + 1) (fun j hj => h j (by omega))
    · rw [if_neg hguard]
      exact ⟨i, rfl⟩

lemma pollLoop_timedOut_not_completed (env : Nat → List Process) (s e : Int) :
    ∀ fuel i k, pollLoop env s e fuel i = PollResult.timedOut k →
      ∀ j, i ≤ j → j < k → observedState (env j) s e ≠ some "COMPLETED" := by
  intro fuel
  induction fuel with
  | zero =>
    intro i k h j hij hjk
    rw [pollLoop] at h
    cases h
    omega
  | succ fuel ih =>
    intro i k h j hij hjk
    rw [pollLoop] at h
    by_cases hguard : INITIAL_DELAY_MS + i * POLL_INTERVAL_MS < MAX_POLL_TIME_MS
    · rw [if_pos hguard] at h
      cases hfind : findProcessByNameAndDate (env i) PROCESS_NAME s e with
      | none =>
        rw [hfind] at h
        rcases Nat.eq_or_lt_of_le hij with hji | hji
        · rw [← hji]
          simp [observedState, hfind]
        · exact ih (i + 1) k h j hji hjk
      | some p =>
        rw [hfind] at h
        simp only [] at h
        by_cases hc : stateOf p = some "COMPLETED"
        · rw [if_pos hc] at h
          cases h
        · rw [if_neg hc] at h
          by_cases hf : stateOf p = some "ERROR" ∨ stateOf p = some "CANCELLED"
          · rw [if_pos hf] at h
            cases h
          · rw [if_neg hf] at h
            rcases Nat.eq_or_lt_of_le hij with hji | hji
            · rw [← hji]
              simpa [observedState, hfind] using hc
            · exact ih (i + 1) k h j hji hjk
    · rw [if_neg hguard] at h
      cases h
      omega

lemma pollLoop_reaches_completed (env : Nat → List Process) (s e : Int) (p : Process) :
    ∀ fuel i m, i ≤ m → m < i + fuel →
      (∀ j, i ≤ j → j < m → ¬ terminalObserved (env j) s e) →
      INITIAL_DELAY_MS + m * POLL_INTERVAL_MS < MAX_POLL_TIME_MS →
      findProcessByNameAndDate (env m) PROCESS_NAME s e = some p →
      stateOf p = some "COMPLETED" →
      pollLoop env s e fuel i =
        PollResult.completed p (INITIAL_DELAY_MS + m * POLL_INTERVAL_MS) (m + 1) := by
  intro fuel
  induction fuel with
  | zero =>
    intro i m him hmf
    omega
  | succ fuel ih =>
    intro i m him hmf hnt hguard hfind hstate
    have hguardi : INITIAL_DELAY_MS + i * POLL_INTERVAL_MS < MAX_POLL_TIME_MS := by
      have : i * POLL_INTERVAL_MS ≤ m * POLL_INTERVAL_MS := Nat.mul_le_mul_right _ him
      omega
    rw [pollLoop, if_pos hguardi]
    rcases Nat.eq_or_lt_of_le him with him | hlt
    · subst him
      rw [hfind]
      simp [hstate]
    · have hnti := hnt i (le_refl i) hlt
      cases hfindi : findProcessByNameAndDate (env i) PROCESS_NAME s e with
      | none =>
        exact ih (i + 1) m (by omega) (by omega)
          (fun j hj hjm => hnt j (by omega) hjm) hguard hfind hstate
      | some q =>
        have hobs : observedState (env i) s e = stateOf q := by
          simp [observedState, hfindi]
        rw [terminalObserved, hobs] at hnti
        push_neg at hnti
        simp only []
        rw [if_neg hnti.1, if_neg (by simp [hnti.2.1, hnti.2.2])]
        exact ih (i + 1) m (by omega) (by omega) (fun j hj hjm => hnt j (by omega) hjm)
          hguard hfind hstate

lemma pollLoop_completed_time (env : Nat → List Process) (s e : Int) :
    ∀ fuel i p t k, pollLoop env s e fuel i = PollResult.completed p t k →
      i < k ∧ t = INITIAL_DELAY_MS + (k - 1) * POLL_INTERVAL_MS ∧
        INITIAL_DELAY_MS + (k - 1) * POLL_INTERVAL_MS < MAX_POLL_TIME_MS := by
  intro fuel
  induction fuel with
  | zero =>
    intro i p t k h
    rw [pollLoop] at h
    cases h
  | succ fuel ih =>
    intro i p t k h
    rw [pollLoop] at h
    by_cases hguard : INITIAL_DELAY_MS + i * POLL_INTERVAL_MS < MAX_POLL_TIME_MS
    · rw [if_pos hguard] at h
      cases hfind : findProcessByNameAndDate (env i) PROCESS_NAME s e with
      | none =>
        rw [hfind] at h
        have := ih (i + 1) p t k h
        exact ⟨by omega, this.2.1, this.2.2⟩
      | some q =>
        rw [hfind] at h
        simp only [] at h
        by_cases hc : stateOf q = some "COMPLETED"
        · rw [if_pos hc] at h
          cases h
          refine ⟨by omega, ?_, ?_⟩
          · simp
          · simpa using hguard
        · rw [if_neg hc] at h
          by_cases hf : stateOf q = some "ERROR" ∨ stateOf q = some "CANCELLED"
          · rw [if_pos hf] at h
            cases h
          · rw [if_neg hf] at h
            have := ih (i + 1) p t k h
            exact ⟨by omega, this.2.1, this.2.2⟩
    · rw [if_neg hguard] at h
      cases h

/-- C7: `pollForCompletion` times out when no check inside the
`MAX_POLL_TIME_MS` window observes a terminal state; a timed-out run never
observed a `COMPLETED` match at any check it performed; and a run whose
first terminal observation is a `COMPLETED` match before the deadline
returns that very job instead of timing out. -/
theorem pollForCompletion_timeout_spec (env : Nat → List Process) (s e : Int) :
    ((∀ j, INITIAL_DELAY_MS + j * POLL_INTERVAL_MS < MAX_POLL_TIME_MS →
        ¬ terminalObserved (env j) s e) →
      ∃ k, pollForCompletion env s e = PollResult.timedOut k) ∧
    (∀ k, pollForCompletion env s e = PollResult.timedOut k →
      ∀ j, j < k → observedState (env j) s e ≠ some "COMPLETED") ∧
    (∀ m p, (∀ j, j < m → ¬ terminalObserved (env j) s e) →
      INITIAL_DELAY_MS + m * POLL_INTERVAL_MS < MAX_POLL_TIME_MS →
      findProcessByNameAndDate (env m) PROCESS_NAME s e = some p →
      stateOf p = some "COMPLETED" →
      pollForCompletion env s e =
        PollResult.completed p (INITIAL_DELAY_MS + m * POLL_INTERVAL_MS) (m + 1)) := by
  refine ⟨?_, ?_, ?_⟩
  · intro h
    exact pollLoop_timedOut_of_nonterminal env s e MAX_POLL_TIME_MS 0 (fun j _ => h j)
  · intro k hk j hj
    exact pollLoop_timedOut_not_completed env s e MAX_POLL_TIME_MS 0 k hk j (Nat.zero_le j) hj
  · intro m p hnt hguard hfind hstate
    refine pollLoop_reaches_completed env s e p MAX_POLL_TIME_MS 0 m (Nat.zero_le m) ?_
      (fun j _ hjm => hnt j hjm) hguard hfind hstate
    simp only [INITIAL_DELAY_MS, POLL_INTERVAL_MS, MAX_POLL_TIME_MS] at hguard ⊢
    omega

/-- Witness for C7: with an upstream that always returns an empty job list,
no check observes a terminal state and the poller times out. -/
theorem pollForCompletion_timeout_spec_witness :
    ∃ k, pollForCompletion (fun _ => ([] : List Process)) 0 1 = PollResult.timedOut k :=
  (pollForCompletion_timeout_spec (fun _ => ([] : List Process)) 0 1).1
    (by
      intro j hj
      simp [terminalObserved, observedState, findProcessByNameAndDate])

/-- C8: a successful run that returns on its `k`-th check does so exactly
`INITIAL_DELAY_MS + (k-1) * POLL_INTERVAL_MS` ms after entry, hence within
`INITIAL_DELAY_MS + k * POLL_INTERVAL_MS`, and never before
`INITIAL_DELAY_MS` has elapsed, even when a `COMPLETED` match exists at the
very first check. -/
theorem pollForCompletion_timing (env : Nat → List Process) (s e : Int) (p : Process)
    (t k : Nat) (h : pollForCompletion env s e = PollResult.completed p t k) :
    1 ≤ k ∧ t = INITIAL_DELAY_MS + (k - 1) * POLL_INTERVAL_MS ∧
      INITIAL_DELAY_MS ≤ t ∧ t ≤ INITIAL_DELAY_MS + k * POLL_INTERVAL_MS ∧
      t < MAX_POLL_TIME_MS := by
  have hmain := pollLoop_completed_time env s e MAX_POLL_TIME_MS 0 p t k h
  have hmul : (k - 1) * POLL_INTERVAL_MS ≤ k * POLL_INTERVAL_MS :=
    Nat.mul_le_mul_right _ (by omega)
  refine ⟨by omega, hmain.2.1, ?_, ?_, ?_⟩
  · rw [hmain.2.1]
    omega
  · rw [hmain.2.1]
    omega
  · rw [hmain.2.1]
    exact hmain.2.2

/-- Witness for C8: a run that completes on its first check returns at
exactly `INITIAL_DELAY_MS` ms. -/
theorem pollForCompletion_timing_witness :
    1 ≤ 1 ∧ 3000 = INITIAL_DELAY_MS + (1 - 1) * POLL_INTERVAL_MS ∧
      INITIAL_DELAY_MS ≤ 3000 ∧ 3000 ≤ INITIAL_DELAY_MS + 1 * POLL_INTERVAL_MS ∧
      3000 < MAX_POLL_TIME_MS :=
  pollForCompletion_timing (fun _ => [demoCompleted]) (-1) 1 demoCompleted 3000 1 (by decide)

lemma includesAux_append (sub t : List Char) : includesAux sub (sub ++ t) = true := by
  have hpre : sub.isPrefixOf (sub ++ t) = true := by
    simp [List.isPrefixOf_iff_prefix]
  cases h : sub ++ t with
  | nil =>
    rcases List.append_eq_nil.mp h with ⟨h1, h2⟩
    subst h1
    rfl
  | cons c rest =>
    rw [h] at hpre
    rw [includesAux, hpre, Bool.true_or]

lemma includes_of_isPrefixOf (s a : String) (h : a.data <+: s.data) :
    includes s a = true := by
  obtain ⟨t, ht⟩ := h
  unfold includes
  rw [← ht]
  exact includesAux_append a.data t

lemma includes_loginFailed (s t : String) :
    includes ("Login failed: " ++ s ++ " - " ++ t) "Login failed" = true := by
  apply includes_of_isPrefixOf
  rw [String.data_append, String.data_append, String.data_append]
  have h1 : "Login failed".data <+: "Login failed: ".data := by
    apply List.isPrefixOf_iff_prefix.mp
    decide
  exact h1.trans ((List.prefix_append _ s.data).trans
    ((List.prefix_append _ " - ".data).trans (List.prefix_append _ t.data)))

lemma catchResponse_status (msg : String) :
    (catchResponse msg).status = 401 ∨ (catchResponse msg).status = 500 := by
  unfold catchResponse
  split
  · exact Or.inl rfl
  · exact Or.inr rfl

/-- C2: the source's behaviour at the failing input.  With the `email`
header present and the `password` header missing, `handleJourneyExport`
makes no upstream call and returns the required body, but with HTTP status
`401` (`server.js:165`) — not the `400` documented by the spec, the README
and the QUICKSTART guide. -/
theorem handleJourneyExport_missingPassword_behavior :
    handleJourneyExport (some "user@example.com") none demoEnv =
      (⟨401, Body.json false "Email and password are required", jsonHeaders⟩,
        ⟨0, 0, 0, 0, 0⟩) := by
  decide

lemma pollForCompletion_static_failed (L : List Process) (s e : Int) (p : Process)
    (hfind : findProcessByNameAndDate L PROCESS_NAME s e = some p)
    (hstate : stateOf p = some "ERROR") :
    pollForCompletion (fun _ => L) s e = PollResult.failed "ERROR" 1 := by
  have hmax : MAX_POLL_TIME_MS = 599999 + 1 := rfl
  rw [pollForCompletion, hmax, pollLoop, if_pos (by decide)]
  simp only []
  rw [hfind]
  simp [hstate]

lemma resolveExportUrl_matchedError (env : UpstreamEnv) (now : Int) (p : Process)
    (hstatic : env.pollLists = fun _ => env.initialList)
    (hfind : findProcessByNameAndDate env.initialList PROCESS_NAME
      (now - 2 * 60 * 60 * 1000) (now + 5 * 60 * 1000) = some p)
    (hstate : stateOf p = some "ERROR")
    (hexport : env.exportOk = true) :
    resolveExportUrl env now = ⟨ResolveOutcome.err (pollFailedMessage "ERROR"), 1, 2, 1⟩ := by
  have hpoll := pollForCompletion_static_failed env.initialList
    (now - 2 * 60 * 60 * 1000) (now + 5 * 60 * 1000) p hfind hstate
  simp only [resolveExportUrl]
  rw [hfind]
  simp only [hstate]
  rw [if_neg (by decide), if_neg (by decide), triggerAndPoll, hexport, if_pos rfl,
    hstatic, hpoll]

/-- C3: when every listing of the run returns the same job list and the job
selected by the matcher inside the job-search window is in `ERROR` state,
the resolution fails with the job-failure error and the handler returns
HTTP 500 with a message embedding `ERROR` (the run also triggers a fresh
export before its poller observes the failure, as the source does). -/
theorem jobError_resolution_500 (email password : Option String) (env : HandlerEnv)
    (cookie : String) (p : Process)
    (he : truthy email = true) (hp : truthy password = true)
    (hl : login env.loginResp = Except.ok cookie)
    (hstatic : env.upstream.pollLists = fun _ => env.upstream.initialList)
    (hfind : findProcessByNameAndDate env.upstream.initialList PROCESS_NAME
      (env.now - 2 * 60 * 60 * 1000) (env.now + 5 * 60 * 1000) = some p)
    (hstate : stateOf p = some "ERROR")
    (hexport : env.upstream.exportOk = true) :
    (handleJourneyExport email password env).1 =
      ⟨500, Body.json false "Process failed with state: ERROR", jsonHeaders⟩ ∧
    includes "Process failed with state: ERROR" "ERROR" = true := by
  have hres := resolveExportUrl_matchedError env.upstream env.now p hstatic hfind hstate hexport
  constructor
  · unfold handleJourneyExport
    rw [if_neg (show ¬((!truthy email || !truthy password) = true) by rw [he, hp]; decide)]
    rw [hl, hres]
    simp only []
    rw [catchResponse, if_neg (by decide)]
    decide
  · decide

/-- Witness for C3: a concrete run against a static list whose matching job
is in `ERROR` state ends in HTTP 500 with the job-failure message. -/
theorem jobError_resolution_500_witness :
    (handleJourneyExport (some "user@example.com") (some "pw") errorEnv).1 =
      ⟨500, Body.json false "Process failed with state: ERROR", jsonHeaders⟩ ∧
    includes "Process failed with state: ERROR" "ERROR" = true :=
  jobError_resolution_500 (some "user@example.com") (some "pw") errorEnv
    "PLAY_SESSION=abc" demoErrorProcess (by decide) (by decide) rfl rfl (by decide)
    rfl rfl

/-- C4 counterexample: when the upstream login response is successful but
omits the `set-cookie` header, the thrown message is
`No session cookie received from login`, which the `catch` block maps to
HTTP 500 — not to 401 `Authentication failed: Invalid credentials` as the
claim requires of every authentication failure. -/
theorem authError_missingCookie_counterexample :
    (handleJourneyExport (some "user@example.com") (some "pw") noCookieEnv).1 =
      ⟨500, Body.json false "No session cookie received from login", jsonHeaders⟩ := by
  decide

/-- C4 (amended): `login` fails both on a non-success upstream status and on
a missing session cookie; but only the former throws a message containing
`Login failed` and therefore surfaces as
401 `Authentication failed: Invalid credentials`; the missing-cookie
failure surfaces as HTTP 500 with its own message. -/
theorem login_authError_spec (resp : LoginResponse) (env : HandlerEnv)
    (email password : Option String) :
    (resp.ok = false →
      login resp = Except.error
        ("Login failed: " ++ toString resp.status ++ " - " ++ resp.errorText)) ∧
    (resp.ok = true → resp.setCookie = none →
      login resp = Except.error "No session cookie received from login") ∧
    (truthy email = true → truthy password = true → env.loginResp = resp →
      (resp.ok = false →
        (handleJourneyExport email password env).1 =
          ⟨401, Body.json false "Authentication failed: Invalid credentials", jsonHeaders⟩) ∧
      (resp.ok = true → resp.setCookie = none →
        (handleJourneyExport email password env).1 =
          ⟨500, Body.json false "No session cookie received from login", jsonHeaders⟩)) := by
  have hbad : resp.ok = false →
      login resp = Except.error
        ("Login failed: " ++ toString resp.status ++ " - " ++ resp.errorText) := by
    intro hok
    unfold login
    rw [hok]
    rfl
  have hnocookie : resp.ok = true → resp.setCookie = none →
      login resp = Except.error "No session cookie received from login" := by
    intro hok hcookie
    unfold login
    rw [hok, hcookie]
    rfl
  refine ⟨hbad, hnocookie, ?_⟩
  intro he hp henv
  constructor
  · intro hok
    unfold handleJourneyExport
    rw [if_neg (show ¬((!truthy email || !truthy password) = true) by rw [he, hp]; decide)]
    rw [henv, hbad hok]
    simp only []
    rw [catchResponse, if_pos (includes_loginFailed (toString resp.status) resp.errorText)]
  · intro hok hcookie
    unfold handleJourneyExport
    rw [if_neg (show ¬((!truthy email || !truthy password) = true) by rw [he, hp]; decide)]
    rw [henv, hnocookie hok hcookie]
    simp only []
    rw [catchResponse, if_neg (by decide)]

/-- Witness for C4 (amended): a concrete denied login surfaces as 401 with
`Authentication failed: Invalid credentials`. -/
theorem login_authError_spec_witness :
    (handleJourneyExport (some "user@example.com") (some "pw") deniedEnv).1 =
      ⟨401, Body.json false "Authentication failed: Invalid credentials", jsonHeaders⟩ :=
  ((login_authError_spec deniedLogin deniedEnv (some "user@example.com")
    (some "pw")).2.2 (by decide) (by decide) rfl).1 rfl

/-- C6: when the job selected by the matcher in the job-search window is
already `COMPLETED` with result reference `r`, `resolveExportUrl` returns
`r` immediately: zero `pollForCompletion` invocations, no listing beyond
the initial one, and no export trigger. -/
theorem resolveExportUrl_completed_shortCircuit (env : UpstreamEnv) (now : Int)
    (p : Process) (r : String)
    (hfind : findProcessByNameAndDate env.initialList PROCESS_NAME
      (now - 2 * 60 * 60 * 1000) (now + 5 * 60 * 1000) = some p)
    (hstate : stateOf p = some "COMPLETED")
    (hurl : fileUrlOf p = some r) :
    resolveExportUrl env now = ⟨ResolveOutcome.ok (some r), 0, 1, 0⟩ := by
  simp only [resolveExportUrl]
  rw [hfind]
  simp [hstate, hurl]

/-- Witness for C6: a concrete list holding one recent `COMPLETED` job
resolves to its URL with zero polls and a single listing. -/
theorem resolveExportUrl_completed_shortCircuit_witness :
    resolveExportUrl demoUpstreamCompleted 0 =
      ⟨ResolveOutcome.ok (some "https://x/1"), 0, 1, 0⟩ :=
  resolveExportUrl_completed_shortCircuit demoUpstreamCompleted 0 demoCompleted
    "https://x/1" (by decide) rfl rfl

/-- C9 counterexample: on the service's only success path the response is
built from the fully downloaded buffer (`await fileResponse.arrayBuffer()`,
`server.js:190`) and always carries MD5/SHA-256 digest headers — full
buffering with digests is the default behaviour, not an optional
non-default variant, and no streaming path exists. -/
theorem default_success_buffers_counterexample :
    (handleJourneyExport (some "user@example.com") (some "pw") successEnv).1 =
      ⟨200, Body.file [1, 2, 3],
        [("Content-Type", "application/vnd.ms-excel"),
          ("Content-Disposition", "attachment; filename=\"jornada-export.xls\""),
          ("Content-Length", "3"),
          ("X-File-MD5", "md5"),
          ("X-File-SHA256", "sha256")]⟩ := by
  decide

/-- C9 (amended): every successful (HTTP 200) response of
`handleJourneyExport` carries the complete downloaded byte buffer as its
body and both `X-File-MD5` and `X-File-SHA256` digest headers; buffering
with digests is the default and only success behaviour. -/
theorem handleJourneyExport_success_buffers (email password : Option String)
    (env : HandlerEnv)
    (h : (handleJourneyExport email password env).1.status = 200) :
    (handleJourneyExport email password env).1.body = Body.file env.download.data ∧
    (∃ v, ("X-File-MD5", v) ∈ (handleJourneyExport email password env).1.headers) ∧
    (∃ v, ("X-File-SHA256", v) ∈ (handleJourneyExport email password env).1.headers) := by
  have hcatch : ∀ msg : String, (catchResponse msg).status ≠ 200 := by
    intro msg
    rcases catchResponse_status msg with hc | hc <;> rw [hc] <;> omega
  unfold handleJourneyExport at h ⊢
  by_cases hcred : (!truthy email || !truthy password) = true
  · rw [if_pos hcred] at h
    simp at h
  · rw [if_neg hcred] at h ⊢
    split at h
    next msg heq =>
      exact absurd h (hcatch msg)
    next c heq =>
      split at h
      next msg pollN listN exportN heq2 =>
        exact absurd h (hcatch msg)
      next fileUrl pollN listN exportN heq2 =>
        split at h
        next hfu =>
          exact absurd h (hcatch _)
        next hfu =>
          split at h
          next hdl =>
            exact absurd h (hcatch _)
          next hdl =>
            rw [if_neg hfu, if_neg hdl]
            refine ⟨by simp, ⟨env.hash "md5" env.download.data, by simp⟩,
              ⟨env.hash "sha256" env.download.data, by simp⟩⟩

/-- Witness for C9 (amended): the concrete successful run returns the full
buffer with both digest headers present. -/
theorem handleJourneyExport_success_buffers_witness :
    (handleJourneyExport (some "user@example.com") (some "pw") successEnv).1.body =
      Body.file successEnv.download.data ∧
    (∃ v, ("X-File-MD5", v) ∈
      (handleJourneyExport (some "user@example.com") (some "pw") successEnv).1.headers) ∧
    (∃ v, ("X-File-SHA256", v) ∈
      (handleJourneyExport (some "user@example.com") (some "pw") successEnv).1.headers) :=
  handleJourneyExport_success_buffers (some "user@example.com") (some "pw") successEnv
    (by decide)

/-- C10: when the resolution yields a `COMPLETED` job whose result URL is
absent at both recognized nesting paths, the resolution returns no URL and
the handler answers HTTP 500 with
`Export completed but no file URL was returned`, attempting no download. -/
theorem noFileUrl_resolution_500 (email password : Option String) (env : HandlerEnv)
    (cookie : String)
    (he : truthy email = true) (hp : truthy password = true)
    (hl : login env.loginResp = Except.ok cookie) :
    ((resolveExportUrl env.upstream env.now).outcome = ResolveOutcome.ok none →
      (handleJourneyExport email password env).1 =
        ⟨500, Body.json false "Export completed but no file URL was returned", jsonHeaders⟩ ∧
      (handleJourneyExport email password env).2.downloadCalls = 0) ∧
    (∀ p, findProcessByNameAndDate env.upstream.initialList PROCESS_NAME
        (env.now - 2 * 60 * 60 * 1000) (env.now + 5 * 60 * 1000) = some p →
      stateOf p = some "COMPLETED" → p.resultFileUrl = none → p.statusResultFileUrl = none →
      (resolveExportUrl env.upstream env.now).outcome = ResolveOutcome.ok none) := by
  constructor
  · intro hout
    unfold handleJourneyExport
    rw [if_neg (show ¬((!truthy email || !truthy password) = true) by rw [he, hp]; decide)]
    rw [hl]
    cases hres : resolveExportUrl env.upstream env.now with
    | mk outcome pollN listN exportN =>
      rw [hres] at hout
      simp only [] at hout
      subst hout
      simp only []
      rw [if_pos (by decide), catchResponse, if_neg (by decide)]
      exact ⟨rfl, rfl⟩
  · intro p hfind hstate hru hrsu
    simp only [resolveExportUrl]
    rw [hfind]
    simp [hstate, fileUrlOf, jsOr, truthy, hru, hrsu]

/-- Witness for C10: a concrete run whose matched job is `COMPLETED` with no
URL at either nesting path ends in the no-file-URL 500 response and never
attempts a download. -/
theorem noFileUrl_resolution_500_witness :
    (handleJourneyExport (some "user@example.com") (some "pw") noUrlEnv).1 =
      ⟨500, Body.json false "Export completed but no file URL was returned", jsonHeaders⟩ ∧
    (handleJourneyExport (some "user@example.com") (some "pw") noUrlEnv).2.downloadCalls = 0 :=
  (noFileUrl_resolution_500 (some "user@example.com") (some "pw") noUrlEnv
    "PLAY_SESSION=abc" (by decide) (by decide) rfl).1
    ((noFileUrl_resolution_500 (some "user@example.com") (some "pw") noUrlEnv
      "PLAY_SESSION=abc" (by decide) (by decide) rfl).2 demoNoUrlProcess (by decide)
      rfl rfl rfl)

end MaxTrack
